import Mathlib

set_option maxRecDepth 100000

/-!
Verification of the yolt-backend repository (FastAPI audio/task/affirmation
service) against its natural-language specification.

The Python source is shallowly embedded: pure request/response shaping is
translated into executable Lean functions; the two external model services
(the local Whisper speech model and the remote Gemini generative-AI client),
together with the JSON parser of the Python standard library, are passed in
as oracle parameters; the process-wide Whisper handle and the scratch-file
directory are threaded as explicit state.
-/

/-- A JSON value, the shape of request and response bodies built by the
handlers in src/backend.py. -/
inductive Json where
  | null : Json
  | bool : Bool → Json
  | num : Int → Json
  | str : String → Json
  | arr : List Json → Json
  | obj : List (String × Json) → Json

/-- Lookup of a key in an association list, modelling a Python dict read
(dict keys are unique, so first-match lookup is faithful). -/
def lookupAssoc : List (String × Json) → String → Option Json
  | [], _ => none
  | (k, v) :: rest, key => if k = key then some v else lookupAssoc rest key

/-- Keyed update of an association list, modelling a Python dict item
assignment: replaces the first binding of the key, else appends. -/
def setAssoc : List (String × Json) → String → Json → List (String × Json)
  | [], key, v => [(key, v)]
  | (k, w) :: rest, key, v =>
    if k = key then (key, v) :: rest else (k, w) :: setAssoc rest key v

/-- Read a field of a JSON object, none when absent or not an object. -/
def jsonGetField : Json → String → Option Json
  | Json.obj fields, key => lookupAssoc fields key
  | _, _ => none

/-- A raised Python exception, as the handlers can observe it:
a fastapi HTTPException with status code and detail, a KeyError,
a json.JSONDecodeError, or any other exception with its message. -/
inductive PyExc where
  | http : Nat → String → PyExc
  | keyError : String → PyExc
  | jsonDecodeError : String → PyExc
  | other : String → PyExc

/-- Python str(e) of an exception, as interpolated into the 500 detail
messages: starlette HTTPException stringifies as "code: detail", and
KeyError stringifies as the repr of its key. -/
def PyExc.str : PyExc → String
  | PyExc.http code detail => Nat.repr code ++ ": " ++ detail
  | PyExc.keyError key => "\x27" ++ key ++ "\x27"
  | PyExc.jsonDecodeError msg => msg
  | PyExc.other msg => msg

/-- An HTTP response: status code plus JSON body. -/
structure HTTPResponse where
  status : Nat
  body : Json

/-- Modelled from the spec: the web framework (outside src/) turns a
handler outcome into the response of section 6 of the spec — a returned
JSONResponse passes through, a raised HTTPException becomes a response
with its status code and a \x7b"detail": ...\x7d body, and any other
uncaught exception becomes the generic 500 Internal Server Error. -/
def fastapiRespond : Except PyExc HTTPResponse → HTTPResponse
  | Except.ok resp => resp
  | Except.error (PyExc.http code detail) =>
    ⟨code, Json.obj [("detail", Json.str detail)]⟩
  | Except.error _ => ⟨500, Json.str "Internal Server Error"⟩

/-- Modelled from the spec: as fastapiRespond, for a handler that returns
a plain JSON value (framework wraps it in a 200 response). -/
def fastapiRespondJson : Except PyExc Json → HTTPResponse
  | Except.ok j => ⟨200, j⟩
  | Except.error (PyExc.http code detail) =>
    ⟨code, Json.obj [("detail", Json.str detail)]⟩
  | Except.error _ => ⟨500, Json.str "Internal Server Error"⟩

/-- The ASCII whitespace stripped by Python str.strip (the transcripts and
request texts at issue are ASCII; full Unicode spaces are not modelled). -/
def isPySpace (c : Char) : Bool :=
  c = ' ' || c = '\t' || c = '\n' || c = '\r' || c = '\x0b' || c = '\x0c'

/-- Python str.strip(): remove leading and trailing whitespace. -/
def pyStrip (s : String) : String :=
  ⟨((s.toList.dropWhile isPySpace).reverse.dropWhile isPySpace).reverse⟩

/-- The literal left-brace character. -/
def lbraceChar : Char := Char.ofNat 123

/-- The literal right-brace character. -/
def rbraceChar : Char := Char.ofNat 125

/-- Core of Python str.format with one positional argument, on the brace
forms the two templates in the source use: a doubled brace is an escape
producing one literal brace, and an empty replacement field substitutes
the argument.  (The templates contain no lone trailing brace, so the
ValueError cases of the real parser are unreachable here.) -/
def pyFormatAux (arg : List Char) : List Char → List Char
  | [] => []
  | [c] => [c]
  | c1 :: c2 :: rest =>
    if c1 = lbraceChar && c2 = lbraceChar then lbraceChar :: pyFormatAux arg rest
    else if c1 = rbraceChar && c2 = rbraceChar then rbraceChar :: pyFormatAux arg rest
    else if c1 = lbraceChar && c2 = rbraceChar then arg ++ pyFormatAux arg rest
    else c1 :: pyFormatAux arg (c2 :: rest)

/-- Python template.format(arg) for the prompt templates of the source. -/
def pythonFormat (template : String) (arg : String) : String :=
  ⟨pyFormatAux arg.toList template.toList⟩

/-- Does the character list start with the given list? -/
def charListHasPre : List Char → List Char → Bool
  | [], _ => true
  | _ :: _, [] => false
  | a :: as, b :: bs => a = b && charListHasPre as bs

/-- Does the needle occur as a contiguous run anywhere in the haystack? -/
def containsAt (needle : List Char) : List Char → Bool
  | [] => needle.isEmpty
  | c :: rest => charListHasPre needle (c :: rest) || containsAt needle rest

/-- Substring test on strings (Python "needle in hay"). -/
def strContainsSub (hay needle : String) : Bool :=
  containsAt needle.toList hay.toList

/-- A UTC wall-clock instant as Python datetime components. -/
structure UTCTime where
  year : Nat
  month : Nat
  day : Nat
  hour : Nat
  minute : Nat
  second : Nat
  microsecond : Nat

/-- Decimal rendering of a natural, zero-padded on the left to a width. -/
def padLeft0 (width : Nat) (n : Nat) : String :=
  ⟨List.replicate (width - (Nat.repr n).length) '0' ++ (Nat.repr n).toList⟩

/-- Python datetime.isoformat() of an aware UTC datetime: the microsecond
part is omitted when zero, and the utcoffset renders as "+00:00". -/
def pyIsoformatUTC (t : UTCTime) : String :=
  padLeft0 4 t.year ++ "-" ++ padLeft0 2 t.month ++ "-" ++ padLeft0 2 t.day ++
  "T" ++ padLeft0 2 t.hour ++ ":" ++ padLeft0 2 t.minute ++ ":" ++ padLeft0 2 t.second ++
  (if t.microsecond = 0 then "" else "." ++ padLeft0 6 t.microsecond) ++
  "+00:00"

/-- Is the character an ASCII decimal digit? -/
def isAsciiDigit (c : Char) : Bool := decide ('0' ≤ c) && decide (c ≤ '9')

/-- Consume one expected literal character. -/
def chkLit (c : Char) : List Char → Option (List Char)
  | x :: rest => if x = c then some rest else none
  | [] => none

/-- Consume exactly n decimal digits. -/
def chkDigits : Nat → List Char → Option (List Char)
  | 0, l => some l
  | k + 1, x :: rest => if isAsciiDigit x then chkDigits k rest else none
  | _ + 1, [] => none

/-- After the seconds of a fractional part: one or more digits then a
final Z and nothing else. -/
def fracDigitsZ : List Char → Bool
  | [] => false
  | [_] => false
  | c :: rest => isAsciiDigit c && (rest = ['Z'] || fracDigitsZ rest)

/-- After the seconds field: either a final Z, or a dot, a nonempty digit
run and a final Z. -/
def chkFracZ : List Char → Bool
  | ['Z'] => true
  | c :: rest => if c = '.' then fracDigitsZ rest else false
  | [] => false

/-- Modelled from the spec: "a well-formed ISO-8601 UTC timestamp string
ending in Z" — the Zulu form YYYY-MM-DDTHH:MM:SS[.ffffff]Z, in which the
Z designator itself carries the UTC offset, so no "+00:00" offset may
also appear.  The check is structural (digit counts and separators);
field ranges are not constrained, which only widens acceptance. -/
def isIso8601UTCZ (s : String) : Bool :=
  match (((((((((chkDigits 4 s.toList).bind (chkLit '-')).bind
      (chkDigits 2)).bind (chkLit '-')).bind (chkDigits 2)).bind
      (chkLit 'T')).bind (chkDigits 2)).bind (chkLit ':')).bind
      (chkDigits 2)).bind (chkLit ':') with
  | none => false
  | some rest =>
    match chkDigits 2 rest with
    | none => false
    | some rest2 => chkFracZ rest2

/-! ## src/config/settings.py -/

/-- src/config/settings.py line 11: the upload size limit in bytes. -/
def MAX_AUDIO_FILE_SIZE : Nat := 25 * 1024 * 1024

/-! ## src/services/transcription_service.py

The process-wide global whisper_model (None until loaded) is threaded as
an Option Nat, a Nat standing for the loaded model handle; the handle a
fresh whisper.load_model call would produce is an oracle argument.  The
scratch-file directory is threaded as an association of file names to
byte contents. -/

/-- The scratch-file directory: file names with their byte contents. -/
abbrev FSList := List (String × List Nat)

/-- src/services/transcription_service.py lines 8-15: load the model if
the global is still None, else return the already-loaded handle.  The
freshHandle argument is the handle whisper.load_model would return. -/
def load_whisper_model (whisper_model : Option Nat) (freshHandle : Nat) :
    Nat × Option Nat :=
  match whisper_model with
  | none => (freshHandle, some freshHandle)
  | some m => (m, some m)

/-- src/services/transcription_service.py lines 40-42: the model status
is whether the global is not None. -/
def get_whisper_model_status (whisper_model : Option Nat) : Bool :=
  whisper_model.isSome

/-- src/backend.py lines 25-28: the lifespan hook calls load_whisper_model
once at application startup. -/
def lifespan_startup (whisper_model : Option Nat) (freshHandle : Nat) :
    Option Nat :=
  (load_whisper_model whisper_model freshHandle).2

/-- NamedTemporaryFile(delete=False) followed by temp_file.write: creates
the scratch file holding the audio bytes. -/
def writeTempFile (fs : FSList) (name : String) (data : List Nat) : FSList :=
  fs ++ [(name, data)]

/-- The finally block, lines 36-38: os.remove the scratch file if it
exists (a no-op when absent). -/
def removeTempFile : FSList → String → FSList
  | [], _ => []
  | p :: rest, name => if p.1 = name then rest else p :: removeTempFile rest name

/-- src/services/transcription_service.py lines 17-38: load the model,
write the audio bytes to a fresh scratch file, transcribe inside a
try/finally that removes the scratch file on every exit path.  The
modelResult oracle stands for the whisper load_audio / pad_or_trim /
transcribe calls: an exception, or the optional "text" entry of the
result dict (result.get with default "" and the str-if-truthy guard are
translated literally). -/
def transcribe_audio_file (whisper_model : Option Nat) (fs : FSList)
    (freshHandle : Nat) (tempName : String) (audioData : List Nat)
    (modelResult : Except PyExc (Option String)) :
    Except PyExc String × Option Nat × FSList :=
  let loaded := load_whisper_model whisper_model freshHandle
  let fs1 := writeTempFile fs tempName audioData
  let outcome : Except PyExc String :=
    match modelResult with
    | Except.error e => Except.error e
    | Except.ok resultText =>
      let transcription := resultText.getD ""
      Except.ok (if transcription = "" then "" else transcription)
  (outcome, loaded.2, removeTempFile fs1 tempName)

/-! ## src/services/task_service.py -/

/-- The Gemini generate_content return value, as the handlers read it:
its .text attribute, which may be None. -/
structure GenaiResponse where
  text : Option String

/-- src/services/task_service.py lines 4-16, the prompt template
(braces written as \x7b\x7d escapes; the single \x7b\x7d pair at the end
is the replacement field the transcription is formatted into). -/
def TASK_EXTRACTION_SYSTEM_PROMPT : String :=
  "\nYou are an expert assistant that extracts actionable tasks from meeting transcriptions.\nYour job is to read the provided transcription and identify clear, concise tasks that need to be completed.\nReturn the tasks in a structured JSON format matching the schema given to you in the config.\nGuidelines:\n- Only include actionable items (things to do).\n- Actionable verbs like I want to, I wanna, I should, I hope to, etc should be taken into account \n- If priority is not mentioned, set it to medium.\n- Do not invent tasks; only extract what is clearly implied.\n- Be concise and use clear language.\nTranscription:\n\x7b\x7d\n"

/-- src/services/task_service.py lines 18-35: format the transcription
into the prompt and call the generative service (the gemini oracle); the
try/except prints and re-raises, so it is the identity on the outcome. -/
def extract_tasks (transcription : String)
    (gemini : String → Except PyExc GenaiResponse) :
    Except PyExc GenaiResponse :=
  match gemini (pythonFormat TASK_EXTRACTION_SYSTEM_PROMPT transcription) with
  | Except.ok response => Except.ok response
  | Except.error e => Except.error e

/-! ## src/backend.py handlers -/

/-- An uploaded multipart file as the handlers see it: the filename, the
optional size metadata from the upload headers, and the byte content
that .read() returns. -/
structure UploadFile where
  filename : String
  size : Option Nat
  content : List Nat

/-- Python truthiness of an UploadFile object (line 78): an ordinary
object without a length or bool override is always truthy. -/
def uploadFileTruthy (_ : UploadFile) : Bool := true

/-- Line 80, "audio_file.size and audio_file.size > MAX_AUDIO_FILE_SIZE":
None and 0 are falsy, so the oversize branch is taken only when the size
metadata is present, nonzero and above the limit. -/
def pySizeCheck (size : Option Nat) : Bool :=
  match size with
  | none => false
  | some n => if n = 0 then false else decide (n > MAX_AUDIO_FILE_SIZE)

/-- src/backend.py lines 45-59, the try block of transcribe_audio: read
the upload, reject empty content with an HTTPException(400), transcribe,
and return the 200 JSONResponse. -/
def transcribe_audio_try (whisper_model : Option Nat) (fs : FSList)
    (freshHandle : Nat) (tempName : String)
    (modelResult : Except PyExc (Option String)) (audioFile : UploadFile) :
    Except PyExc HTTPResponse × Option Nat × FSList :=
  if audioFile.content = [] then
    (Except.error (PyExc.http 400 "Empty audio file"), whisper_model, fs)
  else
    match transcribe_audio_file whisper_model fs freshHandle tempName
        audioFile.content modelResult with
    | (Except.error e, st2, fs2) => (Except.error e, st2, fs2)
    | (Except.ok transcription, st2, fs2) =>
      (Except.ok ⟨200, Json.obj [("filename", Json.str audioFile.filename),
        ("transcription", Json.str transcription),
        ("status", Json.str "success")]⟩, st2, fs2)

/-- src/backend.py lines 37-66, transcribe_audio: the try block wrapped
in "except Exception as e", which prints and raises
HTTPException(500, "Error processing audio file: " + str(e)).  Note that
fastapi HTTPException is itself an Exception, so the 400 raised inside
the try block is also caught and rewrapped here.  (The function carries
no route decorator in the source.) -/
def transcribe_audio (whisper_model : Option Nat) (fs : FSList)
    (freshHandle : Nat) (tempName : String)
    (modelResult : Except PyExc (Option String)) (audioFile : UploadFile) :
    Except PyExc HTTPResponse × Option Nat × FSList :=
  match transcribe_audio_try whisper_model fs freshHandle tempName
      modelResult audioFile with
  | (Except.ok resp, st2, fs2) => (Except.ok resp, st2, fs2)
  | (Except.error e, st2, fs2) =>
    (Except.error (PyExc.http 500 ("Error processing audio file: " ++ PyExc.str e)),
     st2, fs2)

/-- The "tasks" field of the audio-extraction response, line 101: the raw
response.text, which JSONResponse renders as null when None. -/
def optTextJson : Option String → Json
  | some s => Json.str s
  | none => Json.null

/-- src/backend.py lines 77-104, the try block of
extract_tasks_from_audio: the truthiness check on the upload object, the
metadata size check (413), the empty-content check (400), transcription,
the no-speech check (400), task extraction, and the 200 JSONResponse. -/
def extract_tasks_from_audio_try (whisper_model : Option Nat) (fs : FSList)
    (freshHandle : Nat) (tempName : String)
    (modelResult : Except PyExc (Option String))
    (gemini : String → Except PyExc GenaiResponse) (audioFile : UploadFile) :
    Except PyExc HTTPResponse × Option Nat × FSList :=
  if uploadFileTruthy audioFile = false then
    (Except.error (PyExc.http 400 "No audio file provided"), whisper_model, fs)
  else if pySizeCheck audioFile.size then
    (Except.error (PyExc.http 413 "File too large. Maximum size is 25MB"),
     whisper_model, fs)
  else if audioFile.content = [] then
    (Except.error (PyExc.http 400 "Empty audio file"), whisper_model, fs)
  else
    match transcribe_audio_file whisper_model fs freshHandle tempName
        audioFile.content modelResult with
    | (Except.error e, st2, fs2) => (Except.error e, st2, fs2)
    | (Except.ok transcription, st2, fs2) =>
      if pyStrip transcription = "" then
        (Except.error (PyExc.http 400 "No speech detected in audio file"), st2, fs2)
      else
        match extract_tasks transcription gemini with
        | Except.error e => (Except.error e, st2, fs2)
        | Except.ok taskResponse =>
          (Except.ok ⟨200, Json.obj [("status", Json.str "success"),
            ("transcription", Json.str transcription),
            ("tasks", optTextJson taskResponse.text),
            ("filename", Json.str audioFile.filename)]⟩, st2, fs2)

/-- src/backend.py lines 68-111, extract_tasks_from_audio: the try block
wrapped in the catch-all that rewraps every exception — the internal 400
and 413 HTTPExceptions included — as HTTPException(500) with the
original str(e) embedded. -/
def extract_tasks_from_audio (whisper_model : Option Nat) (fs : FSList)
    (freshHandle : Nat) (tempName : String)
    (modelResult : Except PyExc (Option String))
    (gemini : String → Except PyExc GenaiResponse) (audioFile : UploadFile) :
    Except PyExc HTTPResponse × Option Nat × FSList :=
  match extract_tasks_from_audio_try whisper_model fs freshHandle tempName
      modelResult gemini audioFile with
  | (Except.ok resp, st2, fs2) => (Except.ok resp, st2, fs2)
  | (Except.error e, st2, fs2) =>
    (Except.error (PyExc.http 500
      ("Error processing audio file for task extraction: " ++ PyExc.str e)),
     st2, fs2)

/-- The fallback task object of lines 135 and 140. -/
def emptyTasksJson : Json := Json.obj [("tasks", Json.arr [])]

/-- src/backend.py lines 122-149, the try block of
extract_tasks_from_text: reject blank text (400), extract tasks, parse
the response text (falsy text or a json.JSONDecodeError both fall back
to the empty task object), and return the 200 JSONResponse.  The
jsonParse oracle is Python json.loads, none meaning it raises
JSONDecodeError. -/
def extract_tasks_from_text_try (text : String)
    (gemini : String → Except PyExc GenaiResponse)
    (jsonParse : String → Option Json) : Except PyExc HTTPResponse :=
  if text = "" ∨ pyStrip text = "" then
    Except.error (PyExc.http 400 "No text provided or text is empty")
  else
    match extract_tasks text gemini with
    | Except.error e => Except.error e
    | Except.ok taskResponse =>
      let tasks :=
        match taskResponse.text with
        | some t =>
          if t = "" then emptyTasksJson
          else
            match jsonParse t with
            | some j => j
            | none => emptyTasksJson
        | none => emptyTasksJson
      Except.ok ⟨200, Json.obj [("input_text", Json.str text),
        ("tasks", tasks), ("status", Json.str "success")]⟩

/-- src/backend.py lines 113-156, extract_tasks_from_text: the try block
wrapped in the catch-all that rewraps every exception — the internal 400
included — as HTTPException(500) with the original str(e) embedded. -/
def extract_tasks_from_text (text : String)
    (gemini : String → Except PyExc GenaiResponse)
    (jsonParse : String → Option Json) : Except PyExc HTTPResponse :=
  match extract_tasks_from_text_try text gemini jsonParse with
  | Except.ok resp => Except.ok resp
  | Except.error e =>
    Except.error (PyExc.http 500
      ("Error processing text for task extraction: " ++ PyExc.str e))

/-- src/backend.py lines 163-187, the affirmation prompt template
(braces written as \x7b\x7d escapes, apostrophes as \x27).  The Tasks
line holds a doubled-brace escape pair \x7b\x7b\x7d\x7d, which format
renders as the two literal characters \x7b\x7d without consuming the
argument. -/
def AFFIRMATION_PROMPT_TEMPLATE : String :=
  "\n            You are a motivational writer generating short, emotionally uplifting affirmations.\n\n            Given a user\x27s daily to-do list, generate a SINGLE daily affirmation that:\n            - Aligns with the theme of the user\x27s tasks\n            - Focuses on the long term goals of the user on a spiritual l\n            - Is poetic and inspiring (1-2 sentences max)\n            - Reflects the user\x27s energy, or mindset needed to approach the tasks\n            - Does NOT repeat or list the actual tasks\n            - Does NOT describe or summarize the task list\n            - Sounds like a personal mantra or inner voice\n            - Is general enough to feel universal, but subtly influenced by the nature of the tasks\n\n            Only return the affirmation. No explanations, greetings, or metadata. Adhere to the attached format\n\n            Tasks:\n            \x7b\x7b\x7d\x7d\n\n            Example tasks:\n            - Finish report\n            - Meditate for 10 minutes\n            - Schedule doctor appointment\n\n            Example output:\n            \"I trust my ability to stay focused and make space for what matters most today.\""

mutual

/-- Python str() of a JSON-derived value, as format would render the
tasks argument (repr quotes for strings, Python spellings for the
atoms).  The affirmation template never substitutes its argument, so
nothing downstream depends on this rendering. -/
def pyReprJson : Json → String
  | Json.null => "None"
  | Json.bool true => "True"
  | Json.bool false => "False"
  | Json.num n => toString n
  | Json.str s => "\x27" ++ s ++ "\x27"
  | Json.arr xs => "[" ++ pyReprJsonList xs ++ "]"
  | Json.obj fields => "\x7b" ++ pyReprJsonFields fields ++ "\x7d"

/-- Comma-joined renderings of list elements. -/
def pyReprJsonList : List Json → String
  | [] => ""
  | [x] => pyReprJson x
  | x :: rest => pyReprJson x ++ ", " ++ pyReprJsonList rest

/-- Comma-joined renderings of object fields. -/
def pyReprJsonFields : List (String × Json) → String
  | [] => ""
  | [(k, v)] => "\x27" ++ k ++ "\x27: " ++ pyReprJson v
  | (k, v) :: rest => "\x27" ++ k ++ "\x27: " ++ pyReprJson v ++ ", " ++ pyReprJsonFields rest

end

/-- Python str(response.text), line 193: None renders as "None". -/
def strOfOptText : Option String → String
  | some s => s
  | none => "None"

/-- Line 194, json_data["timestamp"] = ...: item assignment on the parsed
value, a TypeError when it is not an object. -/
def jsonSetField : Json → String → Json → Except PyExc Json
  | Json.obj fields, key, v => Except.ok (Json.obj (setAssoc fields key v))
  | _, _, _ => Except.error (PyExc.other "TypeError: item assignment on non-dict")

/-- src/backend.py lines 158-197, generate_affirmation: compute the
timestamp (aware-UTC isoformat plus a literal Z), look up the tasks key
of the caller dict (a KeyError when absent — the argument of format is
evaluated even though the escaped braces never substitute it), call the
generative service on the formatted prompt, json.loads the str() of the
response text, and set the timestamp field of the parsed object.  The
handler has no try/except, so every failure propagates uncaught. -/
def generate_affirmation (user_tasks : List (String × Json)) (now : UTCTime)
    (gemini : String → Except PyExc GenaiResponse)
    (jsonParse : String → Option Json) : Except PyExc Json :=
  let current_timestamp := pyIsoformatUTC now ++ "Z"
  match lookupAssoc user_tasks "tasks" with
  | none => Except.error (PyExc.keyError "tasks")
  | some tasksValue =>
    match gemini (pythonFormat AFFIRMATION_PROMPT_TEMPLATE (pyReprJson tasksValue)) with
    | Except.error e => Except.error e
    | Except.ok response =>
      match jsonParse (strOfOptText response.text) with
      | none => Except.error (PyExc.jsonDecodeError (strOfOptText response.text))
      | some json_data => jsonSetField json_data "timestamp" (Json.str current_timestamp)

/-- src/backend.py lines 199-205, health_check: reports the whisper
model status; no try/except. -/
def health_check (whisper_model : Option Nat) : HTTPResponse :=
  ⟨200, Json.obj [("status", Json.str "healthy"),
    ("whisper_model_loaded", Json.bool (get_whisper_model_status whisper_model))]⟩

/-! ## Process traces over the whisper global, for the health invariant -/

/-- The operations of a process run that touch or read the whisper
global: the startup or a direct load, a transcription request (which
calls load_whisper_model first), and a health check (read-only). -/
inductive WhisperOp where
  | load : WhisperOp
  | transcribe : WhisperOp
  | health : WhisperOp

/-- Effect of one operation on the whisper global. -/
def applyOp (freshHandle : Nat) (whisper_model : Option Nat) (op : WhisperOp) :
    Option Nat :=
  match op with
  | WhisperOp.load => (load_whisper_model whisper_model freshHandle).2
  | WhisperOp.transcribe => (load_whisper_model whisper_model freshHandle).2
  | WhisperOp.health => whisper_model

/-- The whisper global after a sequence of operations. -/
def runOps (freshHandle : Nat) (whisper_model : Option Nat)
    (ops : List WhisperOp) : Option Nat :=
  ops.foldl (applyOp freshHandle) whisper_model

/-- Does the operation invoke load_whisper_model? -/
def opTriggersLoad : WhisperOp → Bool
  | WhisperOp.load => true
  | WhisperOp.transcribe => true
  | WhisperOp.health => false

/-! ## Helper lemmas -/

/-- Reading back a key just written into an association list. -/
theorem lookupAssoc_setAssoc (fields : List (String × Json)) (key : String) (v : Json) :
    lookupAssoc (setAssoc fields key v) key = some v := by
  induction fields with
  | nil => simp [setAssoc, lookupAssoc]
  | cons p rest ih =>
    by_cases hk : p.1 = key
    · cases p
      simp_all [setAssoc, lookupAssoc]
    · cases p
      simp_all [setAssoc, lookupAssoc]

/-- Removing a fresh name after appending it restores the directory. -/
theorem removeTempFile_fresh (fs : FSList) (name : String) (data : List Nat)
    (h : ∀ p ∈ fs, p.1 ≠ name) :
    removeTempFile (fs ++ [(name, data)]) name = fs := by
  induction fs with
  | nil => simp [removeTempFile]
  | cons a rest ih =>
    simp only [List.cons_append, removeTempFile]
    rw [if_neg (h a (List.mem_cons_self a rest))]
    exact congrArg (a :: ·) (ih (fun p hp => h p (List.mem_cons_of_mem a hp)))

/-- The affirmation template holds only an escaped brace pair and no
replacement field, so format never consumes its argument. -/
theorem aff_prompt_const (a : String) :
    pythonFormat AFFIRMATION_PROMPT_TEMPLATE a =
      pythonFormat AFFIRMATION_PROMPT_TEMPLATE "" := rfl

/-- Every success the transcribe_audio try block produces carries
status 200. -/
theorem transcribe_audio_try_ok_status (wm : Option Nat) (fs : FSList)
    (fh : Nat) (tn : String) (mr : Except PyExc (Option String))
    (af : UploadFile) (resp : HTTPResponse) (st2 : Option Nat) (fs2 : FSList)
    (h : transcribe_audio_try wm fs fh tn mr af = (Except.ok resp, st2, fs2)) :
    resp.status = 200 := by
  unfold transcribe_audio_try at h
  split at h
  · simp_all
  · split at h
    · simp_all
    · simp only [Prod.mk.injEq, Except.ok.injEq] at h
      rw [← h.1]

/-- Every success the extract_tasks_from_audio try block produces carries
status 200. -/
theorem extract_tasks_from_audio_try_ok_status (wm : Option Nat) (fs : FSList)
    (fh : Nat) (tn : String) (mr : Except PyExc (Option String))
    (gem : String → Except PyExc GenaiResponse) (af : UploadFile)
    (resp : HTTPResponse) (st2 : Option Nat) (fs2 : FSList)
    (h : extract_tasks_from_audio_try wm fs fh tn mr gem af = (Except.ok resp, st2, fs2)) :
    resp.status = 200 := by
  unfold extract_tasks_from_audio_try at h
  split at h
  · simp_all
  · split at h
    · simp_all
    · split at h
      · simp_all
      · split at h
        · simp_all
        · split at h
          · simp_all
          · split at h
            · simp_all
            · simp only [Prod.mk.injEq, Except.ok.injEq] at h
              rw [← h.1]

/-- Every success the extract_tasks_from_text try block produces carries
status 200. -/
theorem extract_tasks_from_text_try_ok_status (text : String)
    (gem : String → Except PyExc GenaiResponse)
    (jsonParse : String → Option Json) (resp : HTTPResponse)
    (h : extract_tasks_from_text_try text gem jsonParse = Except.ok resp) :
    resp.status = 200 := by
  unfold extract_tasks_from_text_try at h
  split at h
  · simp_all
  · split at h
    · simp_all
    · simp only [Except.ok.injEq] at h
      rw [← h]

/-- Effect of one operation on the loaded status. -/
theorem status_applyOp (f : Nat) (wm : Option Nat) (op : WhisperOp) :
    get_whisper_model_status (applyOp f wm op) =
      (get_whisper_model_status wm || opTriggersLoad op) := by
  cases op <;> cases wm <;> rfl

/-- The loaded status after a trace: set exactly when the trace holds a
loading operation. -/
theorem status_runOps (freshHandle : Nat) (ops : List WhisperOp) :
    ∀ wm, get_whisper_model_status (runOps freshHandle wm ops) =
      (get_whisper_model_status wm || ops.any opTriggersLoad) := by
  induction ops with
  | nil => intro wm; simp [runOps, get_whisper_model_status]
  | cons op rest ih =>
    intro wm
    show get_whisper_model_status (runOps freshHandle (applyOp freshHandle wm op) rest) = _
    rw [ih, status_applyOp]
    simp [List.any_cons, Bool.or_assoc]

/-! ## Claim theorems -/

/-- C9: load_whisper_model is idempotent — the first call on the empty
global performs the one load and stores the handle, a call on a loaded
global is a no-op returning the already-loaded handle (its fresh-load
oracle is ignored), and a second call after the first returns the first
handle and leaves the global unchanged. -/
theorem C9_load_idempotent :
    (∀ freshHandle, load_whisper_model none freshHandle = (freshHandle, some freshHandle)) ∧
    (∀ m freshHandle, load_whisper_model (some m) freshHandle = (m, some m)) ∧
    (∀ h1 h2, load_whisper_model (load_whisper_model none h1).2 h2 =
      ((load_whisper_model none h1).1, (load_whisper_model none h1).2)) :=
  ⟨fun _ => rfl, fun _ _ => rfl, fun _ _ => rfl⟩

/-- C8: in every process state reachable from the initial None global by
load, transcribe and health operations, the health_check response
reports whisper_model_loaded = true exactly when the trace holds an
operation that invokes load_whisper_model; and the startup lifespan hook
leaves the model loaded. -/
theorem C8_health_reflects_load :
    (∀ freshHandle ops,
      jsonGetField (health_check (runOps freshHandle none ops)).body "whisper_model_loaded" =
        some (Json.bool (ops.any opTriggersLoad))) ∧
    (∀ freshHandle, get_whisper_model_status (lifespan_startup none freshHandle) = true) := by
  constructor
  · intro freshHandle ops
    have hs := status_runOps freshHandle ops none
    simp only [get_whisper_model_status, Option.isSome_none, Bool.false_or] at hs
    simp [health_check, jsonGetField, lookupAssoc, get_whisper_model_status, hs]
  · intro freshHandle
    rfl

/-- C7: transcribe_audio_file writes the audio bytes to the scratch file
under its fresh name, and for every model outcome — success or raise —
the scratch file is removed, leaving the directory exactly as it was. -/
theorem C7_scratch_file_removed :
    ∀ wm fs fh tempName data mr,
      (∀ p ∈ fs, p.1 ≠ tempName) →
      writeTempFile fs tempName data = fs ++ [(tempName, data)] ∧
      (transcribe_audio_file wm fs fh tempName data mr).2.2 = fs := by
  intro wm fs fh tempName data mr h
  refine ⟨rfl, ?_⟩
  show removeTempFile (writeTempFile fs tempName data) tempName = fs
  exact removeTempFile_fresh fs tempName data h

/-- Witness for C7 at a concrete directory, scratch name and failing
model call. -/
theorem C7_scratch_file_removed_witness :
    writeTempFile [("keep.bin", [7])] "tmp123.wav" [0, 1] =
      [("keep.bin", [7]), ("tmp123.wav", [0, 1])] ∧
    (transcribe_audio_file none [("keep.bin", [7])] 5 "tmp123.wav" [0, 1]
      (Except.error (PyExc.other "decode failure"))).2.2 = [("keep.bin", [7])] :=
  C7_scratch_file_removed none [("keep.bin", [7])] 5 "tmp123.wav" [0, 1]
    (Except.error (PyExc.other "decode failure")) (by decide)

/-- C6: the claim says the prompt sent to the generative service contains
the caller task titles; in fact the template escapes its braces, so
format substitutes nothing — the prompt is one constant string
regardless of the argument, holds the literal two-character brace pair
where the tasks were meant to go, and does not contain the concrete
title "Water the plants"; accordingly generate_affirmation is invariant
in the tasks value. -/
theorem C6_prompt_never_contains_task_titles :
    (∀ a, pythonFormat AFFIRMATION_PROMPT_TEMPLATE a =
      pythonFormat AFFIRMATION_PROMPT_TEMPLATE "") ∧
    strContainsSub (pythonFormat AFFIRMATION_PROMPT_TEMPLATE
      (pyReprJson (Json.arr [Json.str "Water the plants"]))) "Water the plants" = false ∧
    strContainsSub (pythonFormat AFFIRMATION_PROMPT_TEMPLATE
      (pyReprJson (Json.arr [Json.str "Water the plants"]))) "\x7b\x7d" = true ∧
    (∀ v w now gem parse,
      generate_affirmation [("tasks", v)] now gem parse =
      generate_affirmation [("tasks", w)] now gem parse) := by
  refine ⟨fun _ => rfl, rfl, rfl, ?_⟩
  intro v w now gem parse
  have hv : lookupAssoc [("tasks", v)] "tasks" = some v := rfl
  have hw : lookupAssoc [("tasks", w)] "tasks" = some w := rfl
  simp only [generate_affirmation, hv, hw]
  rw [aff_prompt_const (pyReprJson v), aff_prompt_const (pyReprJson w)]

/-- C5 counterexample: generate_affirmation is a handler with no
catch-all — on a body without the tasks key it fails with a bare
KeyError, which the framework surfaces as the generic 500, not as an
HTTPException whose detail embeds the error text. -/
theorem C5_generate_affirmation_uncaught_counterexample :
    generate_affirmation [("items", Json.null)] ⟨2025, 1, 1, 0, 0, 0, 0⟩
        (fun _ => Except.ok ⟨some "x"⟩) (fun _ => none) =
      Except.error (PyExc.keyError "tasks") ∧
    fastapiRespondJson (generate_affirmation [("items", Json.null)]
        ⟨2025, 1, 1, 0, 0, 0, 0⟩ (fun _ => Except.ok ⟨some "x"⟩) (fun _ => none)) =
      ⟨500, Json.str "Internal Server Error"⟩ :=
  ⟨rfl, rfl⟩

/-- C5 amended: exactly the three transcription/task handlers wrap their
try blocks in the catch-all that rewraps any failure as an
HTTPException(500) whose detail embeds str(e) of the original error;
generate_affirmation has no such wrapper and a missing tasks key escapes
it as a bare KeyError. -/
theorem C5_amended_catch_all :
    (∀ wm fs fh tn mr af e st2 fs2,
      transcribe_audio_try wm fs fh tn mr af = (Except.error e, st2, fs2) →
      transcribe_audio wm fs fh tn mr af =
        (Except.error (PyExc.http 500 ("Error processing audio file: " ++ PyExc.str e)),
         st2, fs2)) ∧
    (∀ wm fs fh tn mr gem af e st2 fs2,
      extract_tasks_from_audio_try wm fs fh tn mr gem af = (Except.error e, st2, fs2) →
      extract_tasks_from_audio wm fs fh tn mr gem af =
        (Except.error (PyExc.http 500
          ("Error processing audio file for task extraction: " ++ PyExc.str e)),
         st2, fs2)) ∧
    (∀ text gem parse e,
      extract_tasks_from_text_try text gem parse = Except.error e →
      extract_tasks_from_text text gem parse =
        Except.error (PyExc.http 500
          ("Error processing text for task extraction: " ++ PyExc.str e))) ∧
    (∀ user_tasks now gem parse, lookupAssoc user_tasks "tasks" = none →
      generate_affirmation user_tasks now gem parse =
        Except.error (PyExc.keyError "tasks")) := by
  refine ⟨?_, ?_, ?_, ?_⟩
  · intro wm fs fh tn mr af e st2 fs2 h
    unfold transcribe_audio
    rw [h]
  · intro wm fs fh tn mr gem af e st2 fs2 h
    unfold extract_tasks_from_audio
    rw [h]
  · intro text gem parse e h
    unfold extract_tasks_from_text
    rw [h]
  · intro user_tasks now gem parse h
    simp only [generate_affirmation, h]

/-- Witness for C5 at a concrete empty upload: the internal 400 is
rewrapped into the 500 with the original text embedded. -/
theorem C5_amended_catch_all_witness :
    transcribe_audio none [] 0 "t.wav" (Except.ok none) ⟨"f.wav", none, []⟩ =
      (Except.error (PyExc.http 500 "Error processing audio file: 400: Empty audio file"),
       none, ([] : FSList)) :=
  C5_amended_catch_all.1 none [] 0 "t.wav" (Except.ok none) ⟨"f.wav", none, []⟩
    (PyExc.http 400 "Empty audio file") none [] rfl

/-- C10: a posted object without a tasks key makes generate_affirmation
fail with an uncaught KeyError surfacing as the generic server error,
not a 400 validation error; and the key lookup is the only shape
validation — with the key present, the behaviour is a function of the
looked-up value alone. -/
theorem C10_missing_tasks_key_server_error :
    (∀ user_tasks now gem parse, lookupAssoc user_tasks "tasks" = none →
      generate_affirmation user_tasks now gem parse = Except.error (PyExc.keyError "tasks") ∧
      fastapiRespondJson (generate_affirmation user_tasks now gem parse) =
        ⟨500, Json.str "Internal Server Error"⟩ ∧
      (fastapiRespondJson (generate_affirmation user_tasks now gem parse)).status ≠ 400) ∧
    (∀ user_tasks v now gem parse, lookupAssoc user_tasks "tasks" = some v →
      generate_affirmation user_tasks now gem parse =
        generate_affirmation [("tasks", v)] now gem parse) := by
  constructor
  · intro user_tasks now gem parse h
    have hgen : generate_affirmation user_tasks now gem parse =
        Except.error (PyExc.keyError "tasks") := by
      simp only [generate_affirmation, h]
    refine ⟨hgen, ?_, ?_⟩
    · rw [hgen]
      rfl
    · rw [hgen]
      decide
  · intro user_tasks v now gem parse h
    simp only [generate_affirmation, h, lookupAssoc]
    simp

/-- Witness for C10 at a concrete body lacking the tasks key. -/
theorem C10_missing_tasks_key_server_error_witness :
    generate_affirmation [("todo", Json.null)] ⟨2025, 6, 1, 8, 0, 0, 0⟩
        (fun _ => Except.ok ⟨some "y"⟩) (fun _ => none) =
      Except.error (PyExc.keyError "tasks") ∧
    fastapiRespondJson (generate_affirmation [("todo", Json.null)]
        ⟨2025, 6, 1, 8, 0, 0, 0⟩ (fun _ => Except.ok ⟨some "y"⟩) (fun _ => none)) =
      ⟨500, Json.str "Internal Server Error"⟩ ∧
    (fastapiRespondJson (generate_affirmation [("todo", Json.null)]
        ⟨2025, 6, 1, 8, 0, 0, 0⟩ (fun _ => Except.ok ⟨some "y"⟩) (fun _ => none))).status ≠ 400 :=
  C10_missing_tasks_key_server_error.1 [("todo", Json.null)] ⟨2025, 6, 1, 8, 0, 0, 0⟩
    (fun _ => Except.ok ⟨some "y"⟩) (fun _ => none) rfl

/-- C3 counterexample: a successful call whose timestamp field is the
aware isoformat with the Z appended after the +00:00 offset — it ends in
Z but is not a well-formed ISO-8601 UTC timestamp. -/
theorem C3_timestamp_not_iso8601_counterexample :
    generate_affirmation [("tasks", Json.arr [])] ⟨2025, 1, 1, 12, 30, 45, 123456⟩
        (fun _ => Except.ok ⟨some "r"⟩)
        (fun _ => some (Json.obj [("affirmationText", Json.str "Shine.")])) =
      Except.ok (Json.obj [("affirmationText", Json.str "Shine."),
        ("timestamp", Json.str "2025-01-01T12:30:45.123456+00:00Z")]) ∧
    isIso8601UTCZ "2025-01-01T12:30:45.123456+00:00Z" = false :=
  ⟨rfl, rfl⟩

/-- C3 amended: every successful generate_affirmation result carries a
timestamp field equal to the aware-UTC isoformat of the call-time clock
with a literal Z appended — a function of the clock alone, never of the
caller input — which therefore ends in Z but also retains the +00:00
offset. -/
theorem C3_amended_timestamp :
    ∀ user_tasks now gem parse j,
      generate_affirmation user_tasks now gem parse = Except.ok j →
      jsonGetField j "timestamp" = some (Json.str (pyIsoformatUTC now ++ "Z")) := by
  intro user_tasks now gem parse j h
  simp only [generate_affirmation] at h
  cases hl : lookupAssoc user_tasks "tasks" with
  | none => simp [hl] at h
  | some v =>
    simp only [hl] at h
    cases hg : gem (pythonFormat AFFIRMATION_PROMPT_TEMPLATE (pyReprJson v)) with
    | error e => simp [hg] at h
    | ok response =>
      simp only [hg] at h
      cases hp : parse (strOfOptText response.text) with
      | none => simp [hp] at h
      | some json_data =>
        simp only [hp] at h
        cases json_data with
        | obj fields =>
          simp only [jsonSetField, Except.ok.injEq] at h
          rw [← h]
          simp only [jsonGetField]
          rw [lookupAssoc_setAssoc]
        | null => simp [jsonSetField] at h
        | bool b => simp [jsonSetField] at h
        | num n => simp [jsonSetField] at h
        | str s => simp [jsonSetField] at h
        | arr xs => simp [jsonSetField] at h

/-- Witness for C3 amended at a concrete clock with zero microseconds. -/
theorem C3_amended_timestamp_witness :
    jsonGetField (Json.obj [("affirmationText", Json.str "Rise."),
        ("timestamp", Json.str "2026-03-04T05:06:07+00:00Z")]) "timestamp" =
      some (Json.str (pyIsoformatUTC ⟨2026, 3, 4, 5, 6, 7, 0⟩ ++ "Z")) :=
  C3_amended_timestamp [("tasks", Json.arr [])] ⟨2026, 3, 4, 5, 6, 7, 0⟩
    (fun _ => Except.ok ⟨some "r"⟩)
    (fun _ => some (Json.obj [("affirmationText", Json.str "Rise.")]))
    (Json.obj [("affirmationText", Json.str "Rise."),
      ("timestamp", Json.str "2026-03-04T05:06:07+00:00Z")]) rfl

/-- C1: the claim says empty inputs yield HTTP 400.  Each handler does
raise HTTPException(400) on empty input, but its catch-all
except Exception also catches HTTPException, so the response the
framework sends has status 500, its detail embedding the original 400
message: evaluation of all three handlers at empty inputs. -/
theorem C1_empty_input_becomes_500 :
    (∀ wm fs fh tn mr fn sz,
      fastapiRespond (transcribe_audio wm fs fh tn mr ⟨fn, sz, []⟩).1 =
        ⟨500, Json.obj [("detail",
          Json.str "Error processing audio file: 400: Empty audio file")]⟩) ∧
    (∀ wm fs fh tn mr gem fn,
      fastapiRespond (extract_tasks_from_audio wm fs fh tn mr gem ⟨fn, none, []⟩).1 =
        ⟨500, Json.obj [("detail",
          Json.str "Error processing audio file for task extraction: 400: Empty audio file")]⟩) ∧
    (∀ text gem parse, pyStrip text = "" →
      fastapiRespond (extract_tasks_from_text text gem parse) =
        ⟨500, Json.obj [("detail",
          Json.str "Error processing text for task extraction: 400: No text provided or text is empty")]⟩) := by
  refine ⟨?_, ?_, ?_⟩
  · intro wm fs fh tn mr fn sz
    rfl
  · intro wm fs fh tn mr gem fn
    rfl
  · intro text gem parse h
    unfold extract_tasks_from_text extract_tasks_from_text_try
    rw [if_pos (Or.inr h)]
    rfl

/-- Witness for C1 at a whitespace-only text body. -/
theorem C1_empty_input_becomes_500_witness :
    pyStrip " \t " = "" ∧
    fastapiRespond (extract_tasks_from_text " \t "
        (fun _ => Except.ok ⟨some "x"⟩) (fun _ => none)) =
      ⟨500, Json.obj [("detail",
        Json.str "Error processing text for task extraction: 400: No text provided or text is empty")]⟩ :=
  ⟨rfl, C1_empty_input_becomes_500.2.2 " \t "
    (fun _ => Except.ok ⟨some "x"⟩) (fun _ => none) rfl⟩

/-- C2 counterexample: an upload one byte over the 25 MiB limit with its
size metadata present is answered with status 500, not the claimed 413
(the handler raises the 413 internally, but its catch-all rewraps it). -/
theorem C2_oversize_not_413_counterexample :
    (fastapiRespond (extract_tasks_from_audio none [] 0 "tmp.wav"
        (Except.ok (some "hello")) (fun _ => Except.ok ⟨some "x"⟩)
        ⟨"big.wav", some 26214401, [1]⟩).1).status = 500 ∧
    (fastapiRespond (extract_tasks_from_audio none [] 0 "tmp.wav"
        (Except.ok (some "hello")) (fun _ => Except.ok ⟨some "x"⟩)
        ⟨"big.wav", some 26214401, [1]⟩).1).status ≠ 413 :=
  ⟨rfl, by decide⟩

/-- C2 amended: only extract_tasks_from_audio checks the upload size, and
only via the size metadata; when that metadata exceeds the limit the
handler raises the internal 413, which its catch-all converts into a 500
whose detail embeds the 413 message — so neither audio endpoint ever
responds 413: every transcribe_audio or extract_tasks_from_audio
response has status 200 or 500. -/
theorem C2_amended_oversize_handling :
    (∀ wm fs fh tn mr gem fn n content, MAX_AUDIO_FILE_SIZE < n →
      (extract_tasks_from_audio wm fs fh tn mr gem ⟨fn, some n, content⟩).1 =
        Except.error (PyExc.http 500
          "Error processing audio file for task extraction: 413: File too large. Maximum size is 25MB")) ∧
    (∀ wm fs fh tn mr gem af,
      (fastapiRespond (extract_tasks_from_audio wm fs fh tn mr gem af).1).status = 200 ∨
      (fastapiRespond (extract_tasks_from_audio wm fs fh tn mr gem af).1).status = 500) ∧
    (∀ wm fs fh tn mr af,
      (fastapiRespond (transcribe_audio wm fs fh tn mr af).1).status = 200 ∨
      (fastapiRespond (transcribe_audio wm fs fh tn mr af).1).status = 500) := by
  refine ⟨?_, ?_, ?_⟩
  · intro wm fs fh tn mr gem fn n content h
    have hsz : pySizeCheck (some n) = true := by
      simp only [pySizeCheck]
      rw [if_neg (by omega : ¬ n = 0)]
      exact decide_eq_true h
    unfold extract_tasks_from_audio extract_tasks_from_audio_try
    rw [if_neg (by simp [uploadFileTruthy])]
    rw [if_pos hsz]
    rfl
  · intro wm fs fh tn mr gem af
    unfold extract_tasks_from_audio
    rcases htry : extract_tasks_from_audio_try wm fs fh tn mr gem af with ⟨res, st2, fs2⟩
    cases res with
    | error e =>
      right
      rfl
    | ok resp =>
      left
      have h200 := extract_tasks_from_audio_try_ok_status wm fs fh tn mr gem af resp st2 fs2 htry
      simpa [fastapiRespond] using h200
  · intro wm fs fh tn mr af
    unfold transcribe_audio
    rcases htry : transcribe_audio_try wm fs fh tn mr af with ⟨res, st2, fs2⟩
    cases res with
    | error e =>
      right
      rfl
    | ok resp =>
      left
      have h200 := transcribe_audio_try_ok_status wm fs fh tn mr af resp st2 fs2 htry
      simpa [fastapiRespond] using h200

/-- Witness for C2 amended at the concrete oversize upload. -/
theorem C2_amended_oversize_handling_witness :
    (extract_tasks_from_audio none [] 0 "tmp.wav" (Except.ok (some "hello"))
        (fun _ => Except.ok ⟨some "x"⟩) ⟨"big.wav", some 26214401, [1]⟩).1 =
      Except.error (PyExc.http 500
        "Error processing audio file for task extraction: 413: File too large. Maximum size is 25MB") :=
  C2_amended_oversize_handling.1 none [] 0 "tmp.wav" (Except.ok (some "hello"))
    (fun _ => Except.ok ⟨some "x"⟩) "big.wav" 26214401 [1] (by decide)

/-- C4: with non-blank text, when the generative service answers and its
response text does not parse as JSON, the inner except swallows the
JSONDecodeError and the endpoint still responds 200 with the empty task
object. -/
theorem C4_unparseable_model_output_yields_empty_tasks :
    ∀ text gem parse s,
      ¬(text = "" ∨ pyStrip text = "") →
      gem (pythonFormat TASK_EXTRACTION_SYSTEM_PROMPT text) = Except.ok ⟨some s⟩ →
      parse s = none →
      fastapiRespond (extract_tasks_from_text text gem parse) =
        ⟨200, Json.obj [("input_text", Json.str text), ("tasks", emptyTasksJson),
          ("status", Json.str "success")]⟩ := by
  intro text gem parse s hb hg hp
  have hext : extract_tasks text gem = Except.ok ⟨some s⟩ := by
    unfold extract_tasks
    rw [hg]
  by_cases hs : s = ""
  · subst hs
    simp only [extract_tasks_from_text, extract_tasks_from_text_try, hext, if_neg hb]
    rfl
  · simp only [extract_tasks_from_text, extract_tasks_from_text_try, hext,
      if_neg hb, if_neg hs, hp]
    rfl

/-- Witness for C4 at concrete text and unparseable model output. -/
theorem C4_unparseable_model_output_yields_empty_tasks_witness :
    fastapiRespond (extract_tasks_from_text "Plan a trip"
        (fun _ => Except.ok ⟨some "not json"⟩) (fun _ => none)) =
      ⟨200, Json.obj [("input_text", Json.str "Plan a trip"),
        ("tasks", emptyTasksJson), ("status", Json.str "success")]⟩ :=
  C4_unparseable_model_output_yields_empty_tasks "Plan a trip"
    (fun _ => Except.ok ⟨some "not json"⟩) (fun _ => none) "not json"
    (by decide) rfl rfl
